import Mathlib

/-!  Verification of the theme subsystem of the portfolio repository:
the theme validator (hex parsing, WCAG luminance/contrast, structural,
accessibility and harmony passes), the theme CSS generator (accent, gray
and chart-slot variables with cyclic indexing), and the client-side
ThemeManager state holder.  JavaScript values are modelled as follows:
possibly-`undefined` fields become `Option`, JS string falsiness (`""` and
`undefined` are falsy) is modelled explicitly, numbers become real numbers,
and a JS object used as a string-keyed map becomes an association list. -/

namespace Portfolio

open Classical

/-  Data model: the `Theme` record consumed by the validator and the CSS
generator.  Every field that defensive code in the source treats as
possibly missing is an `Option`. -/

structure Accent where
  light : Option String
  regular : Option String
  dark : Option String
deriving Repr, DecidableEq

/-  The optional gray ramp: a string-keyed map of step labels to colors,
modelled as an association list (a JS object). -/
abbrev GrayMap := List (String × String)

structure Charts where
  primary : Option (List String)
  categorical : Option (List String)
  gradient : Option (List String)
deriving Repr, DecidableEq

structure ThemeColors where
  accent : Option Accent
  gray : Option GrayMap
  charts : Option Charts
deriving Repr, DecidableEq

structure Theme where
  id : String
  colors : Option ThemeColors
deriving Repr, DecidableEq

/-  JS truthiness helpers for string-valued fields: `undefined` and `""`
are falsy, every other string is truthy. -/

/-- A possibly-undefined JS string is falsy when absent or empty. -/
def falsy (o : Option String) : Bool :=
  match o with
  | none => true
  | some s => s.isEmpty

/-- JS `a || d` for a possibly-undefined string `a`: the fallback `d` when
`a` is falsy. -/
def jsOr (o : Option String) (d : String) : String :=
  match o with
  | none => d
  | some s => if s.isEmpty then d else s

/-- JS string coercion of a possibly-undefined value (template literals and
regexes stringify `undefined` to `"undefined"`). -/
def jsStr (o : Option String) : String :=
  o.getD "undefined"

/-- JS `!list?.length`: true when the list is absent or empty. -/
def emptyList (o : Option (List String)) : Bool :=
  match o with
  | none => true
  | some l => l.isEmpty

/-  Color math primitives (`hexToRgb`, `getLuminance`, `getContrastRatio`,
`checkContrast` from the validator module). -/

/-- One hex digit of the regex character class `[a-f\d]` (case-insensitive). -/
def isHexDigit (c : Char) : Bool :=
  (decide ('0' ≤ c) && decide (c ≤ '9')) ||
  (decide ('a' ≤ c) && decide (c ≤ 'f')) ||
  (decide ('A' ≤ c) && decide (c ≤ 'F'))

/-- Numeric value of a hex digit (`parseInt(_, 16)` on one digit). -/
def hexDigitVal (c : Char) : Nat :=
  if decide ('0' ≤ c) && decide (c ≤ '9') then c.toNat - '0'.toNat
  else if decide ('a' ≤ c) && decide (c ≤ 'f') then c.toNat - 'a'.toNat + 10
  else if decide ('A' ≤ c) && decide (c ≤ 'F') then c.toNat - 'A'.toNat + 10
  else 0

/-- The regex's optional leading `#?`: drop one leading `#` when present. -/
def stripHash (cs : List Char) : List Char :=
  match cs with
  | '#' :: rest => rest
  | other => other

/-- The three captured two-digit groups of
`/^#?([a-f\d]{2})([a-f\d]{2})([a-f\d]{2})$/i`, parsed with `parseInt(_, 16)`,
or the `null` sentinel when the six-digit shape does not match. -/
def hexParse (cs : List Char) : Option (Nat × Nat × Nat) :=
  match cs with
  | [a, b, c, d, e, f] =>
    if isHexDigit a && isHexDigit b && isHexDigit c && isHexDigit d &&
       isHexDigit e && isHexDigit f then
      some (16 * hexDigitVal a + hexDigitVal b,
            16 * hexDigitVal c + hexDigitVal d,
            16 * hexDigitVal e + hexDigitVal f)
    else none
  | _ => none

/-- `hexToRgb`: runs the hex regex against the input and parses the three
two-digit groups, or returns the `null` sentinel. -/
def hexToRgb (hex : String) : Option (Nat × Nat × Nat) :=
  hexParse (stripHash hex.data)

/-- The shape accepted by `hexToRgb`: an optional `#` followed by exactly six
hex digits. -/
def matchesHexPattern (hex : String) : Bool :=
  decide ((stripHash hex.data).length = 6) && (stripHash hex.data).all isHexDigit

/-- WCAG sRGB channel linearization: `c/12.92` below the `0.03928` knee, else
`((c+0.055)/1.055)^2.4`. -/
noncomputable def linearize (c : ℝ) : ℝ :=
  if c ≤ 0.03928 then c / 12.92 else ((c + 0.055) / 1.055) ^ (2.4 : ℝ)

/-- `getLuminance`: relative luminance of a hex color; unparsable colors
yield `0`. -/
noncomputable def getLuminance (hex : String) : ℝ :=
  match hexToRgb hex with
  | none => 0
  | some (r, g, b) =>
      0.2126 * linearize ((r : ℝ) / 255) +
      0.7152 * linearize ((g : ℝ) / 255) +
      0.0722 * linearize ((b : ℝ) / 255)

/-- `getContrastRatio`: `(brightest + 0.05) / (darkest + 0.05)`. -/
noncomputable def getContrastRatio (color1 color2 : String) : ℝ :=
  let lum1 := getLuminance color1
  let lum2 := getLuminance color2
  (max lum1 lum2 + 0.05) / (min lum1 lum2 + 0.05)

/-- Result record of `checkContrast`: the ratio and the two WCAG threshold
predicates (`passes.aa`, `passes.aaa` in the source). -/
structure ContrastCheck where
  foreground : String
  background : String
  ratio : ℝ
  passes_aa : Prop
  passes_aaa : Prop

/-- `checkContrast`: the ratio together with `ratio >= 4.5` (AA) and
`ratio >= 7.0` (AAA). -/
noncomputable def checkContrast (foreground background : String) : ContrastCheck :=
  let ratio := getContrastRatio foreground background
  { foreground := foreground
    background := background
    ratio := ratio
    passes_aa := ratio ≥ 4.5
    passes_aaa := ratio ≥ 7.0 }

/-  ThemeValidator: structural, accessibility and harmony passes and the
`validateTheme` entry point. -/

structure ValidationResult where
  isValid : Bool
  errors : List String
  warnings : List String

/-- The "required accent colors" block of `validateThemeStructure`: missing
accent object, or a falsy `light`/`regular`/`dark`. -/
def accentStructureErrors (accent : Option Accent) : List String :=
  match accent with
  | none => ["Missing accent color definition"]
  | some a =>
    (if falsy a.light then ["Missing accent.light color"] else []) ++
    (if falsy a.regular then ["Missing accent.regular color"] else []) ++
    (if falsy a.dark then ["Missing accent.dark color"] else [])

/-- The "chart colors" block of `validateThemeStructure`: missing charts
object, or an absent/empty `primary`/`categorical`/`gradient` list. -/
def chartStructureErrors (charts : Option Charts) : List String :=
  match charts with
  | none => ["Missing chart colors definition"]
  | some ch =>
    (if emptyList ch.primary then ["Missing primary chart colors"] else []) ++
    (if emptyList ch.categorical then ["Missing categorical chart colors"] else []) ++
    (if emptyList ch.gradient then ["Missing gradient chart colors"] else [])

/-- `validateThemeStructure`: the accent block followed by the charts block. -/
def validateThemeStructure (theme : Theme) : List String :=
  accentStructureErrors (theme.colors.bind ThemeColors.accent) ++
  chartStructureErrors (theme.colors.bind ThemeColors.charts)

/-- One entry of the `criticalChecks` array: a check name, a foreground and a
background color. -/
structure CriticalCheck where
  name : String
  fg : String
  bg : String
deriving Repr, DecidableEq

/-- The `criticalChecks` list built by `validateColorAccessibility` once the
accent and gray map are known to be present: three light-mode checks with
per-step literal fallbacks, plus two dark-mode checks when gray steps `999`
and `0` are both present and truthy. -/
def criticalChecks (accent : Accent) (gray : GrayMap) : List CriticalCheck :=
  let base : List CriticalCheck :=
    [ { name := "Primary text contrast (light mode)"
        fg := jsOr (List.lookup "0" gray) "#000000"
        bg := jsOr (List.lookup "999" gray) "#ffffff" },
      { name := "Secondary text contrast (light mode)"
        fg := jsOr (List.lookup "200" gray) "#333333"
        bg := jsOr (List.lookup "999" gray) "#ffffff" },
      { name := "Accent on background contrast"
        fg := jsStr accent.regular
        bg := jsOr (List.lookup "999" gray) "#ffffff" } ]
  if !falsy (List.lookup "999" gray) && !falsy (List.lookup "0" gray) then
    base ++
    [ { name := "Primary text contrast (dark mode)"
        fg := jsStr (List.lookup "999" gray)
        bg := jsStr (List.lookup "0" gray) },
      { name := "Secondary text contrast (dark mode)"
        fg := jsOr (List.lookup "800" gray) (jsOr (List.lookup "700" gray) "#cccccc")
        bg := jsStr (List.lookup "0" gray) } ]
  else base

/-- The per-check branch of the `criticalChecks.forEach` body: an error when
the pair fails AA, otherwise a warning when it fails AAA, otherwise nothing.
The source interpolates the numeric ratio (`toFixed(2)`) into the message
text; that decimal rendering is elided here, keeping the per-check message
identity. -/
noncomputable def checkOutcome (c : CriticalCheck) : List String × List String :=
  let contrast := checkContrast c.fg c.bg
  if ¬ contrast.passes_aa then
    ([c.name ++ " fails WCAG AA (needs 4.5:1)"], [])
  else if ¬ contrast.passes_aaa then
    ([], [c.name ++ " passes AA but fails AAA (AAA needs 7:1)"])
  else ([], [])

/-- One `forEach` step: append the check's contribution to the accumulated
error and warning lists. -/
noncomputable def checkStep (acc : List String × List String) (c : CriticalCheck) :
    List String × List String :=
  let o := checkOutcome c
  (acc.1 ++ o.1, acc.2 ++ o.2)

/-- The accumulation of `errors.push` / `warnings.push` over the whole
`criticalChecks` array. -/
noncomputable def runCriticalChecks (accent : Accent) (gray : GrayMap) :
    List String × List String :=
  (criticalChecks accent gray).foldl checkStep ([], [])

/-- `validateColorAccessibility`: aborts with a single error when the accent
or the gray map is absent, otherwise runs the critical contrast checks. -/
noncomputable def validateColorAccessibility (theme : Theme) :
    List String × List String :=
  match theme.colors.bind ThemeColors.accent, theme.colors.bind ThemeColors.gray with
  | some accent, some gray => runCriticalChecks accent gray
  | some _, none => (["Cannot validate accessibility without complete color definitions"], [])
  | none, _ => (["Cannot validate accessibility without complete color definitions"], [])

/-- `validateColorHarmony`: warns when the accent luminance ramp is not
strictly decreasing light→regular→dark, and when a present `primary` chart
list has fewer than 3 entries. -/
noncomputable def validateColorHarmony (theme : Theme) : List String :=
  match theme.colors.bind ThemeColors.accent with
  | none => []
  | some a =>
    let lightLum := getLuminance (jsStr a.light)
    let regularLum := getLuminance (jsStr a.regular)
    let darkLum := getLuminance (jsStr a.dark)
    (if lightLum ≤ regularLum then ["Accent light should be lighter than regular"] else []) ++
    (if regularLum ≤ darkLum then ["Accent regular should be lighter than dark"] else []) ++
    (match theme.colors.bind ThemeColors.charts with
     | some ch =>
       match ch.primary with
       | some primaryColors =>
         if primaryColors.length < 3 then
           ["Consider adding more primary chart colors for better variety"]
         else []
       | none => []
     | none => [])

/-- `validateTheme`: structural pass always; accessibility and harmony passes
only when the structural pass produced zero errors; `isValid` is emptiness of
the final error list. -/
noncomputable def validateTheme (theme : Theme) : ValidationResult :=
  let structuralErrors := validateThemeStructure theme
  if structuralErrors.isEmpty then
    let accessibilityResult := validateColorAccessibility theme
    let errors := structuralErrors ++ accessibilityResult.1
    let warnings := accessibilityResult.2 ++ validateColorHarmony theme
    { isValid := errors.isEmpty, errors := errors, warnings := warnings }
  else
    { isValid := structuralErrors.isEmpty
      errors := structuralErrors
      warnings := [] }

/-  ThemeCSSGenerator (`generateThemeCSS` in the theme loader module): the
emitted custom-property block, modelled structurally as the ordered lists of
variable/value pairs the string template interpolates. -/

/-- `getChartColor`: safe circular color access — the fallback for an absent
or empty list, otherwise the entry at `index % length` (a falsy entry, i.e.
the empty string, also falls back). -/
def getChartColor (colors : Option (List String)) (index : Nat) (fallback : String) : String :=
  match colors with
  | none => fallback
  | some cs =>
    if cs.length = 0 then fallback
    else
      let c := cs.getD (index % cs.length) ""
      if c.isEmpty then fallback else c

/-- The fixed order of the gray step labels emitted by the generator. -/
def grayStepLabels : List String :=
  ["0", "50", "100", "200", "300", "400", "500", "600", "700", "800", "900", "999"]

/-- The structured content of one generated `:root.theme-<id>` block. -/
structure ThemeCSS where
  themeId : String
  accentVars : List (String × String)
  grayVars : List (String × String)
  primarySlots : List String
  categoricalSlots : List String
  gradientSlots : List String
deriving Repr, DecidableEq

/-- `generateThemeCSS`: accent variables, the gray block (emitted only when
the gray map is truthy, with each step read straight off the map — an absent
step stringifies to `"undefined"`), five primary slots, eight categorical
slots and three gradient stops, each chart slot via `getChartColor` with the
literal fallback `#7611a6`.  Accessing `theme.colors.accent` /
`theme.colors.charts` requires those objects to be present (the source would
throw a `TypeError` otherwise), hence the `Option` result. -/
def generateThemeCSS (theme : Theme) : Option ThemeCSS :=
  match theme.colors with
  | none => none
  | some cols =>
    match cols.accent, cols.charts with
    | some accent, some charts =>
      let g : String → String := fun step =>
        match cols.gray with
        | some gray => jsStr (List.lookup step gray)
        | none => "undefined"
      some
        { themeId := theme.id
          accentVars :=
            [("--accent-light", jsStr accent.light),
             ("--accent-regular", jsStr accent.regular),
             ("--accent-dark", jsStr accent.dark)]
          grayVars :=
            match cols.gray with
            | some _ =>
              [("--gray-0", g "0"), ("--gray-50", g "50"), ("--gray-100", g "100"),
               ("--gray-200", g "200"), ("--gray-300", g "300"), ("--gray-400", g "400"),
               ("--gray-500", g "500"), ("--gray-600", g "600"), ("--gray-700", g "700"),
               ("--gray-800", g "800"), ("--gray-900", g "900"), ("--gray-999", g "999")]
            | none => []
          primarySlots :=
            [getChartColor charts.primary 0 "#7611a6",
             getChartColor charts.primary 1 "#7611a6",
             getChartColor charts.primary 2 "#7611a6",
             getChartColor charts.primary 3 "#7611a6",
             getChartColor charts.primary 4 "#7611a6"]
          categoricalSlots :=
            [getChartColor charts.categorical 0 "#7611a6",
             getChartColor charts.categorical 1 "#7611a6",
             getChartColor charts.categorical 2 "#7611a6",
             getChartColor charts.categorical 3 "#7611a6",
             getChartColor charts.categorical 4 "#7611a6",
             getChartColor charts.categorical 5 "#7611a6",
             getChartColor charts.categorical 6 "#7611a6",
             getChartColor charts.categorical 7 "#7611a6"]
          gradientSlots :=
            [getChartColor charts.gradient 0 "#7611a6",
             getChartColor charts.gradient 1 "#7611a6",
             getChartColor charts.gradient 2 "#7611a6"] }
    | _, _ => none

/-  Runtime ThemeManager (client-side theme state holder): the in-memory
two-field state, the root element's class list, the persisted key/value
storage, the dispatched `theme-changed` events and the console-warning log,
as one explicit state record threaded through the public setters. -/

structure ThemeState where
  colorTheme : String
  darkMode : Bool
deriving Repr, DecidableEq

structure ManagerState where
  state : ThemeState
  classes : List String
  storage : List (String × String)
  events : List ThemeState
  log : List String
deriving Repr, DecidableEq

/-- `classList.add`: appends the class when not already present. -/
def classListAdd (cs : List String) (c : String) : List String :=
  if c ∈ cs then cs else cs ++ [c]

/-- `classList.remove`: drops every occurrence of the class. -/
def classListRemove (cs : List String) (c : String) : List String :=
  cs.filter (fun x => x ≠ c)

/-- `classList.toggle(c, force)`: add when forced on, remove when forced off. -/
def classListToggle (cs : List String) (c : String) (force : Bool) : List String :=
  if force then classListAdd cs c else classListRemove cs c

/-- `applyState`: toggles `theme-dark` from `darkMode`, removes every other
`theme-*` class, then adds `theme-<colorTheme>`. -/
def applyState (m : ManagerState) : ManagerState :=
  let cs1 := classListToggle m.classes "theme-dark" m.state.darkMode
  let existingColorThemes :=
    cs1.filter (fun cls => cls.startsWith "theme-" && cls ≠ "theme-dark")
  let cs2 := existingColorThemes.foldl classListRemove cs1
  { m with classes := classListAdd cs2 ("theme-" ++ m.state.colorTheme) }

/-- `localStorage.setItem`: replace the value under the key, or append the
pair when the key is new. -/
def setItem (storage : List (String × String)) (k v : String) : List (String × String) :=
  if storage.any (fun p => p.1 = k) then
    storage.map (fun p => if p.1 = k then (k, v) else p)
  else storage ++ [(k, v)]

/-- `persistState`: writes `theme` (`"dark"`/`"light"`) and `selected-theme`
(the color theme id). -/
def persistState (m : ManagerState) : ManagerState :=
  { m with
    storage :=
      setItem (setItem m.storage "theme" (if m.state.darkMode then "dark" else "light"))
        "selected-theme" m.state.colorTheme }

/-- `dispatchEvents`: dispatches one `theme-changed` event carrying the full
current state. -/
def dispatchEvents (m : ManagerState) : ManagerState :=
  { m with events := m.events ++ [m.state] }

/-- The allow-list `[a-zA-Z0-9-_]` of `setColorTheme`'s sanitizer. -/
def isAllowedChar (c : Char) : Bool :=
  (decide ('a' ≤ c) && decide (c ≤ 'z')) ||
  (decide ('A' ≤ c) && decide (c ≤ 'Z')) ||
  (decide ('0' ≤ c) && decide (c ≤ '9')) ||
  c == '-' || c == '_'

/-- `themeId.replace(/[^a-zA-Z0-9-_]/g, '')`: keep exactly the allow-listed
characters. -/
def sanitizeThemeId (s : String) : String :=
  ⟨s.data.filter isAllowedChar⟩

/-- `setColorTheme`: rejects (warning only) a non-string (`none`) or empty
input; sanitizes the id (logging when the sanitizer changed it); then runs
the apply/persist/notify chain only when the sanitized id differs from the
current one. -/
def setColorTheme (input : Option String) (m : ManagerState) : ManagerState :=
  match input with
  | none => { m with log := m.log ++ ["Invalid theme ID provided"] }
  | some themeId =>
    if themeId = "" then { m with log := m.log ++ ["Invalid theme ID provided"] }
    else
      let sanitizedThemeId := sanitizeThemeId themeId
      let m1 :=
        if sanitizedThemeId ≠ themeId then
          { m with log := m.log ++ ["Theme ID sanitized"] }
        else m
      if m1.state.colorTheme ≠ sanitizedThemeId then
        dispatchEvents (persistState (applyState
          { m1 with state := { m1.state with colorTheme := sanitizedThemeId } }))
      else m1

/-- `setDarkMode`: runs the apply/persist/notify chain only when the value
changed. -/
def setDarkMode (isDark : Bool) (m : ManagerState) : ManagerState :=
  if m.state.darkMode ≠ isDark then
    dispatchEvents (persistState (applyState
      { m with state := { m.state with darkMode := isDark } }))
  else m

/-- `toggleDarkMode`: `setDarkMode(!current)`. -/
def toggleDarkMode (m : ManagerState) : ManagerState :=
  setDarkMode (!m.state.darkMode) m

/-  Concrete fixtures used by counterexamples and witnesses. -/

/-- The default theme's accent ramp (from the repository's theme data). -/
def accentFull : Accent :=
  { light := some "#c561f6", regular := some "#7611a6", dark := some "#1c0056" }

/-- A structurally complete chart color set. -/
def chartsFull : Charts :=
  { primary := some ["#7611a6", "#c561f6", "#1c0056"]
    categorical := some ["#7611a6", "#2e86ab", "#f77f00"]
    gradient := some ["#1c0056", "#7611a6", "#c561f6"] }

/-- The default theme's full twelve-step gray ramp. -/
def grayFull : GrayMap :=
  [("0", "#090b11"), ("50", "#141925"), ("100", "#283044"), ("200", "#3d4663"),
   ("300", "#505d84"), ("400", "#6474a2"), ("500", "#8490b5"), ("600", "#a3acc8"),
   ("700", "#c3cadb"), ("800", "#e3e6ee"), ("900", "#f3f4f7"), ("999", "#ffffff")]

/-- A structurally valid theme that defines no gray ramp. -/
def themeNoGray : Theme :=
  { id := "nogray"
    colors := some { accent := some accentFull, gray := none, charts := some chartsFull } }

/-- A theme whose gray map is present but defines no steps. -/
def themeGrayEmpty : Theme :=
  { id := "grayempty"
    colors := some { accent := some accentFull, gray := some [], charts := some chartsFull } }

/-- A theme with a full gray ramp. -/
def themeGrayFull : Theme :=
  { id := "grayfull"
    colors := some { accent := some accentFull, gray := some grayFull, charts := some chartsFull } }

/-- A theme whose categorical list has length 3 and starts with the empty
string (a falsy entry). -/
def themeEmptyStringCat : Theme :=
  { id := "emptycat"
    colors := some
      { accent := some accentFull, gray := none
        charts := some { chartsFull with categorical := some ["", "#111111", "#222222"] } } }

/-- A theme whose categorical list has length 3 with ordinary entries. -/
def themeCat3 : Theme :=
  { id := "cat3"
    colors := some
      { accent := some accentFull, gray := none
        charts := some { chartsFull with categorical := some ["#111111", "#222222", "#333333"] } } }

/-- A theme with a complete accent but no `colors.charts` object at all. -/
def themeNoCharts : Theme :=
  { id := "nocharts"
    colors := some { accent := some accentFull, gray := none, charts := none } }

/-- A theme with a missing accent, a missing categorical list and an empty
gradient list. -/
def themeGradientEmpty : Theme :=
  { id := "gradempty"
    colors := some
      { accent := none, gray := none
        charts := some { primary := some ["#111111"], categorical := none, gradient := some [] } } }

/-- A manager state as produced by the initial page load. -/
def mgr0 : ManagerState :=
  { state := { colorTheme := "default", darkMode := false }
    classes := ["astro", "theme-default"]
    storage := []
    events := []
    log := [] }

/-  Helper lemmas. -/

@[simp] lemma applyState_state (m : ManagerState) : (applyState m).state = m.state := rfl

@[simp] lemma applyState_events (m : ManagerState) : (applyState m).events = m.events := rfl

@[simp] lemma applyState_storage (m : ManagerState) : (applyState m).storage = m.storage := rfl

@[simp] lemma persistState_state (m : ManagerState) : (persistState m).state = m.state := rfl

@[simp] lemma persistState_events (m : ManagerState) : (persistState m).events = m.events := rfl

@[simp] lemma dispatchEvents_state (m : ManagerState) : (dispatchEvents m).state = m.state := rfl

@[simp] lemma dispatchEvents_events (m : ManagerState) :
    (dispatchEvents m).events = m.events ++ [m.state] := rfl

/-- Pure black parses to `(0,0,0)` and has relative luminance `0`. -/
lemma getLuminance_black : getLuminance "#000000" = 0 := by
  have h : hexToRgb "#000000" = some (0, 0, 0) := by decide
  simp [getLuminance, h, linearize]
  norm_num

/-- Every string pushed to `errors` by one check is that check's AA-failure
message. -/
lemma checkOutcome_fst_eq (c : CriticalCheck) (s : String)
    (h : s ∈ (checkOutcome c).1) :
    s = c.name ++ " fails WCAG AA (needs 4.5:1)" := by
  unfold checkOutcome at h
  dsimp only at h
  split at h
  · simpa using h
  · split at h <;> simp at h

/-- Unrolling the error component of the `forEach` fold: every accumulated
error comes from the start value or from some check in the list. -/
lemma foldl_checkStep_fst_mem (l : List CriticalCheck) (acc : List String × List String)
    (s : String) (h : s ∈ (l.foldl checkStep acc).1) :
    s ∈ acc.1 ∨ ∃ c ∈ l, s ∈ (checkOutcome c).1 := by
  induction l generalizing acc with
  | nil => exact Or.inl h
  | cons hd tl ih =>
    rw [List.foldl_cons] at h
    rcases ih _ h with h1 | ⟨c, hc, hs⟩
    · rcases List.mem_append.1 h1 with h2 | h2
      · exact Or.inl h2
      · exact Or.inr ⟨hd, List.mem_cons_self hd tl, h2⟩
    · exact Or.inr ⟨c, List.mem_cons_of_mem hd hc, hs⟩

/-- The check names that can ever appear in `criticalChecks`. -/
lemma criticalChecks_name_mem (a : Accent) (g : GrayMap) (c : CriticalCheck)
    (h : c ∈ criticalChecks a g) :
    c.name ∈ ["Primary text contrast (light mode)", "Secondary text contrast (light mode)",
      "Accent on background contrast", "Primary text contrast (dark mode)",
      "Secondary text contrast (dark mode)"] := by
  unfold criticalChecks at h
  split at h <;> simp at h <;> rcases h with rfl | rfl | rfl | rfl | rfl <;> simp

/-- The cannot-validate abort message is never produced by the contrast
checks themselves. -/
lemma cannot_msg_not_mem (a : Accent) (g : GrayMap) :
    "Cannot validate accessibility without complete color definitions" ∉
      (runCriticalChecks a g).1 := by
  intro h
  unfold runCriticalChecks at h
  rcases foldl_checkStep_fst_mem _ _ _ h with h0 | ⟨c, hc, hs⟩
  · simp at h0
  · have h1 := checkOutcome_fst_eq c _ hs
    have h2 := criticalChecks_name_mem a g c hc
    simp only [List.mem_cons, List.mem_singleton] at h2
    rcases h2 with h3 | h3 | h3 | h3 | h3 | h3 <;>
      first
        | (rw [h3] at h1; exact absurd h1 (by decide))
        | simp at h3

/-  Claim C1. -/

/-- Modelled from the spec sentence behind claim C1 ("For role pairs whose
source gray step is absent, a documented hardware-independent fallback
literal color is substituted (e.g., pure black/white) so the check can still
run"), read as the claim reads it: with the gray map absent, the
accessibility pass still runs, every gray lookup simply missing and hence
falling back.  To be compared against the source's
`validateColorAccessibility`. -/
noncomputable def validateColorAccessibilityClaimed (theme : Theme) :
    List String × List String :=
  match theme.colors.bind ThemeColors.accent with
  | none => (["Cannot validate accessibility without complete color definitions"], [])
  | some accent => runCriticalChecks accent ((theme.colors.bind ThemeColors.gray).getD [])

/-- Claim C1 counterexample: `themeNoGray` passes the structural pass and has
no gray map, yet the accessibility pass does not run the contrast checks with
fallback colors — it aborts with the single cannot-validate error, differing
from the claimed fallback-substituting behavior. -/
theorem c1_counterexample :
    validateThemeStructure themeNoGray = [] ∧
    validateColorAccessibility themeNoGray =
      (["Cannot validate accessibility without complete color definitions"], []) ∧
    validateColorAccessibility themeNoGray ≠ validateColorAccessibilityClaimed themeNoGray := by
  refine ⟨by decide, rfl, ?_⟩
  intro h
  have h1 : validateColorAccessibilityClaimed themeNoGray = runCriticalChecks accentFull [] := rfl
  have h2 : validateColorAccessibility themeNoGray =
      (["Cannot validate accessibility without complete color definitions"], []) := rfl
  rw [h1, h2] at h
  have h3 : "Cannot validate accessibility without complete color definitions" ∈
      (runCriticalChecks accentFull []).1 := by
    rw [← h]; simp
  exact cannot_msg_not_mem accentFull [] h3

/-- Claim C1 (amended): the accessibility pass runs, substituting the
documented literal fallback for each absent individual gray step, only when
the gray map itself is present; a theme whose gray map is absent gets the
single cannot-validate abort error instead (see the counterexample).  With
accent and gray present, the pass equals the critical-check run, never aborts,
and an absent step `0` (resp. `999`) makes the primary light-mode check fall
back to pure black `#000000` (resp. pure white `#ffffff`). -/
theorem c1_accessibility_runs_with_step_fallbacks (t : Theme) (cols : ThemeColors)
    (accent : Accent) (gray : GrayMap) (h1 : t.colors = some cols)
    (h2 : cols.accent = some accent) (h3 : cols.gray = some gray) :
    validateColorAccessibility t = runCriticalChecks accent gray ∧
    "Cannot validate accessibility without complete color definitions" ∉
      (validateColorAccessibility t).1 ∧
    (List.lookup "0" gray = none →
      (criticalChecks accent gray).head?.map CriticalCheck.fg = some "#000000") ∧
    (List.lookup "999" gray = none →
      (criticalChecks accent gray).head?.map CriticalCheck.bg = some "#ffffff") := by
  have hrun : validateColorAccessibility t = runCriticalChecks accent gray := by
    unfold validateColorAccessibility
    rw [h1]
    simp [h2, h3]
  refine ⟨hrun, ?_, ?_, ?_⟩
  · rw [hrun]; exact cannot_msg_not_mem accent gray
  · intro h0
    unfold criticalChecks
    split <;> simp [jsOr, h0]
  · intro h999
    unfold criticalChecks
    split <;> simp [jsOr, h999]

/-- Claim C1 witness: a present-but-empty gray map runs the checks (no abort)
and the primary light-mode pair falls back to pure black on pure white. -/
theorem c1_witness :
    validateColorAccessibility themeGrayEmpty = runCriticalChecks accentFull [] ∧
    "Cannot validate accessibility without complete color definitions" ∉
      (validateColorAccessibility themeGrayEmpty).1 ∧
    (criticalChecks accentFull []).head?.map CriticalCheck.fg = some "#000000" ∧
    (criticalChecks accentFull []).head?.map CriticalCheck.bg = some "#ffffff" := by
  obtain ⟨a, b, c, d⟩ :=
    c1_accessibility_runs_with_step_fallbacks themeGrayEmpty _ _ _ rfl rfl rfl
  exact ⟨a, b, c rfl, d rfl⟩

/-  Claim C2. -/

/-- Claim C2 counterexample: a categorical list of length 3 whose first entry
is the empty string.  The generated slots replace that falsy entry by the
fallback color `#7611a6`, so the slots are not
`[c0,c1,c2,c0,c1,c2,c0,c1]`. -/
theorem c2_counterexample :
    (generateThemeCSS themeEmptyStringCat).map ThemeCSS.categoricalSlots =
      some ["#7611a6", "#111111", "#222222", "#7611a6", "#111111", "#222222",
            "#7611a6", "#111111"] ∧
    (generateThemeCSS themeEmptyStringCat).map ThemeCSS.categoricalSlots ≠
      some ["", "#111111", "#222222", "", "#111111", "#222222", "", "#111111"] := by
  exact ⟨by decide, by decide⟩

/-- Claim C2 (amended): the eight categorical slots are filled by cyclic
indexing at `i mod length`; for a categorical list of length 3 whose entries
are non-empty strings the slots are exactly `[c0,c1,c2,c0,c1,c2,c0,c1]` (a
falsy — empty-string — entry is replaced by the documented fallback
`#7611a6`, see the counterexample); for an empty categorical list every slot
is the fallback `#7611a6`. -/
theorem c2_categorical_cyclic (t : Theme) (cols : ThemeColors) (accent : Accent)
    (charts : Charts) (h1 : t.colors = some cols) (h2 : cols.accent = some accent)
    (h3 : cols.charts = some charts) :
    (∀ c0 c1 c2 : String, charts.categorical = some [c0, c1, c2] →
      c0 ≠ "" → c1 ≠ "" → c2 ≠ "" →
      (generateThemeCSS t).map ThemeCSS.categoricalSlots =
        some [c0, c1, c2, c0, c1, c2, c0, c1]) ∧
    (charts.categorical = some [] →
      (generateThemeCSS t).map ThemeCSS.categoricalSlots =
        some (List.replicate 8 "#7611a6")) := by
  constructor
  · intro c0 c1 c2 hcat e0 e1 e2
    have i0 : c0.isEmpty = false := by
      rw [Bool.eq_false_iff]
      intro hb
      exact e0 (String.isEmpty_iff c0 |>.1 hb)
    have i1 : c1.isEmpty = false := by
      rw [Bool.eq_false_iff]
      intro hb
      exact e1 (String.isEmpty_iff c1 |>.1 hb)
    have i2 : c2.isEmpty = false := by
      rw [Bool.eq_false_iff]
      intro hb
      exact e2 (String.isEmpty_iff c2 |>.1 hb)
    unfold generateThemeCSS
    rw [h1]
    simp only [h2, h3]
    unfold getChartColor
    rw [hcat]
    simp [List.getD, i0, i1, i2]
  · intro hcat
    unfold generateThemeCSS
    rw [h1]
    simp only [h2, h3]
    unfold getChartColor
    rw [hcat]
    simp [List.replicate]

/-- Claim C2 witness: a non-degenerate length-3 categorical list fills the
eight slots cyclically. -/
theorem c2_witness :
    (generateThemeCSS themeCat3).map ThemeCSS.categoricalSlots =
      some ["#111111", "#222222", "#333333", "#111111", "#222222", "#333333",
            "#111111", "#222222"] := by
  exact (c2_categorical_cyclic themeCat3 _ _ _ rfl rfl rfl).1
    "#111111" "#222222" "#333333" rfl (by decide) (by decide) (by decide)

/-  Claim C3. -/

/-- Claim C3: for every foreground/background pair evaluated by the
accessibility pass, a contrast ratio strictly below `4.5` produces the
error (and no warning), a ratio in `[4.5, 7.0)` produces the warning and no
error, and a ratio of `7.0` or above produces neither; in particular exactly
`4.5` produces no error and exactly `7.0` produces no warning. -/
theorem c3_threshold_classification (c : CriticalCheck) :
    (getContrastRatio c.fg c.bg < 4.5 →
      checkOutcome c = ([c.name ++ " fails WCAG AA (needs 4.5:1)"], [])) ∧
    (4.5 ≤ getContrastRatio c.fg c.bg → getContrastRatio c.fg c.bg < 7.0 →
      checkOutcome c = ([], [c.name ++ " passes AA but fails AAA (AAA needs 7:1)"])) ∧
    (7.0 ≤ getContrastRatio c.fg c.bg → checkOutcome c = ([], [])) := by
  unfold checkOutcome checkContrast
  dsimp only
  refine ⟨fun h => ?_, fun ha hb => ?_, fun h => ?_⟩
  · rw [if_pos (not_le.mpr h)]
  · rw [if_neg (not_not.mpr ha), if_pos (not_le.mpr hb)]
  · rw [if_neg (not_not.mpr (le_trans (by norm_num) h)), if_neg (not_not.mpr h)]

/-- Claim C3 witness: the pair black-on-black has ratio `1 < 4.5` and
produces exactly the AA error. -/
theorem c3_witness :
    checkOutcome { name := "Accent on background contrast", fg := "#000000", bg := "#000000" } =
      (["Accent on background contrast fails WCAG AA (needs 4.5:1)"], []) := by
  apply (c3_threshold_classification _).1
  show getContrastRatio "#000000" "#000000" < 4.5
  unfold getContrastRatio
  rw [getLuminance_black]
  norm_num

/-  Claim C4. -/

/-- Committing a color theme id: the state's `colorTheme` afterwards is the
committed id, whether or not the change branch ran. -/
lemma commit_colorTheme (m1 : ManagerState) (s : String) :
    (if m1.state.colorTheme ≠ s then
       dispatchEvents (persistState (applyState
         { m1 with state := { m1.state with colorTheme := s } }))
     else m1).state.colorTheme = s := by
  split
  · simp
  · next h => exact not_not.mp h

/-- Claim C4: `setColorTheme` is a warning-only no-op on non-string (`none`)
or empty input; on accepted input the applied theme id is exactly the
sanitized id, the sanitized id contains only allow-listed characters
`[A-Za-z0-9_-]`, and when the original input contains a disallowed character
the sanitized id differs from the original. -/
theorem c4_set_color_theme_sanitizes (m : ManagerState) (input : Option String) :
    ((input = none ∨ input = some "") →
      (setColorTheme input m).state = m.state ∧
      (setColorTheme input m).classes = m.classes ∧
      (setColorTheme input m).storage = m.storage ∧
      (setColorTheme input m).events = m.events) ∧
    (∀ id0 : String, input = some id0 → id0 ≠ "" →
      (setColorTheme input m).state.colorTheme = sanitizeThemeId id0 ∧
      (∀ ch ∈ (sanitizeThemeId id0).data, isAllowedChar ch = true) ∧
      ((∃ ch ∈ id0.data, isAllowedChar ch = false) → sanitizeThemeId id0 ≠ id0)) := by
  constructor
  · rintro (rfl | rfl)
    · exact ⟨rfl, rfl, rfl, rfl⟩
    · unfold setColorTheme
      dsimp only
      rw [if_pos rfl]
      exact ⟨rfl, rfl, rfl, rfl⟩
  · intro id0 hinput hne
    subst hinput
    refine ⟨?_, ?_, ?_⟩
    · unfold setColorTheme
      dsimp only
      rw [if_neg hne]
      exact commit_colorTheme _ _
    · intro ch hch
      have hch2 : ch ∈ id0.data.filter isAllowedChar := hch
      exact (List.mem_filter.1 hch2).2
    · rintro ⟨ch, hmem, hfalse⟩ heq
      have hdata : id0.data.filter isAllowedChar = id0.data := congrArg String.data heq
      have := List.filter_eq_self.1 hdata ch hmem
      rw [hfalse] at this
      exact Bool.false_ne_true this

/-- Claim C4 witness: `setColorTheme("evil;</style>")` applies the id
`"evilstyle"`, which survives the allow-list and differs from the input. -/
theorem c4_witness :
    (setColorTheme (some "evil;</style>") mgr0).state.colorTheme = "evilstyle" ∧
    sanitizeThemeId "evil;</style>" ≠ "evil;</style>" := by
  obtain ⟨h1, _, h3⟩ :=
    (c4_set_color_theme_sanitizes mgr0 (some "evil;</style>")).2 "evil;</style>" rfl (by decide)
  refine ⟨h1.trans (by decide), h3 ?_⟩
  exact ⟨';', by decide, by decide⟩

/-  Claim C5. -/

/-- Claim C5: `setDarkMode` with the current value is a strict no-op (state
record, class markers, storage, events and log all unchanged); with the
opposite value it fires exactly one notification carrying the full new
state. -/
theorem c5_set_dark_mode_noop_or_notify (m : ManagerState) (b : Bool) :
    (b = m.state.darkMode → setDarkMode b m = m) ∧
    (b ≠ m.state.darkMode →
      (setDarkMode b m).state = { colorTheme := m.state.colorTheme, darkMode := b } ∧
      (setDarkMode b m).events =
        m.events ++ [{ colorTheme := m.state.colorTheme, darkMode := b }]) := by
  constructor
  · intro h
    unfold setDarkMode
    rw [if_neg (by simp [h])]
  · intro h
    unfold setDarkMode
    rw [if_pos (Ne.symm h)]
    exact ⟨rfl, rfl⟩

/-- Claim C5 witness: on `mgr0` (dark mode off), `setDarkMode false` is a
no-op and `setDarkMode true` dispatches exactly one event carrying the new
state. -/
theorem c5_witness :
    setDarkMode false mgr0 = mgr0 ∧
    (setDarkMode true mgr0).events = [{ colorTheme := "default", darkMode := true }] := by
  refine ⟨(c5_set_dark_mode_noop_or_notify mgr0 false).1 rfl, ?_⟩
  exact ((c5_set_dark_mode_noop_or_notify mgr0 true).2 (by decide)).2

/-  Claim C6. -/

/-- Claim C6 counterexample: a theme with a full gray map generates twelve
gray-step variables, not eleven. -/
theorem c6_counterexample :
    (generateThemeCSS themeGrayFull).map (fun css => css.grayVars.length) = some 12 ∧
    (generateThemeCSS themeGrayFull).map (fun css => css.grayVars.length) ≠ some 11 := by
  exact ⟨by decide, by decide⟩

/-- Claim C6 (amended): when the gray map is present the generated block
contains exactly twelve gray-step variables `--gray-0 .. --gray-999`; each
step present in the map is copied through unchanged (`jsStr (some v) = v`),
while a step absent from a present map renders as the JS stringification
`"undefined"`; when the gray map is absent the block contains no gray-step
variables. -/
theorem c6_gray_vars (t : Theme) (cols : ThemeColors) (accent : Accent)
    (charts : Charts) (h1 : t.colors = some cols) (h2 : cols.accent = some accent)
    (h3 : cols.charts = some charts) :
    (∀ gray : GrayMap, cols.gray = some gray →
      (generateThemeCSS t).map ThemeCSS.grayVars =
        some [("--gray-0", jsStr (List.lookup "0" gray)),
              ("--gray-50", jsStr (List.lookup "50" gray)),
              ("--gray-100", jsStr (List.lookup "100" gray)),
              ("--gray-200", jsStr (List.lookup "200" gray)),
              ("--gray-300", jsStr (List.lookup "300" gray)),
              ("--gray-400", jsStr (List.lookup "400" gray)),
              ("--gray-500", jsStr (List.lookup "500" gray)),
              ("--gray-600", jsStr (List.lookup "600" gray)),
              ("--gray-700", jsStr (List.lookup "700" gray)),
              ("--gray-800", jsStr (List.lookup "800" gray)),
              ("--gray-900", jsStr (List.lookup "900" gray)),
              ("--gray-999", jsStr (List.lookup "999" gray))] ∧
      (generateThemeCSS t).map (fun css => css.grayVars.length) = some 12) ∧
    (cols.gray = none → (generateThemeCSS t).map ThemeCSS.grayVars = some []) ∧
    (∀ v : String, jsStr (some v) = v) := by
  refine ⟨?_, ?_, fun v => rfl⟩
  · intro gray hg
    constructor <;>
      · unfold generateThemeCSS
        rw [h1]
        simp [h2, h3, hg]
  · intro hg
    unfold generateThemeCSS
    rw [h1]
    simp [h2, h3, hg]

/-- Claim C6 witness: the full-gray theme's generated gray block, spelled
out. -/
theorem c6_witness :
    (generateThemeCSS themeGrayFull).map ThemeCSS.grayVars =
      some [("--gray-0", jsStr (List.lookup "0" grayFull)),
            ("--gray-50", jsStr (List.lookup "50" grayFull)),
            ("--gray-100", jsStr (List.lookup "100" grayFull)),
            ("--gray-200", jsStr (List.lookup "200" grayFull)),
            ("--gray-300", jsStr (List.lookup "300" grayFull)),
            ("--gray-400", jsStr (List.lookup "400" grayFull)),
            ("--gray-500", jsStr (List.lookup "500" grayFull)),
            ("--gray-600", jsStr (List.lookup "600" grayFull)),
            ("--gray-700", jsStr (List.lookup "700" grayFull)),
            ("--gray-800", jsStr (List.lookup "800" grayFull)),
            ("--gray-900", jsStr (List.lookup "900" grayFull)),
            ("--gray-999", jsStr (List.lookup "999" grayFull))] := by
  exact (((c6_gray_vars themeGrayFull _ _ _ rfl rfl rfl).1 grayFull rfl)).1

/-  Claim C7. -/

/-- The accent block never produces the gradient error message. -/
lemma count_gradient_accentStructureErrors (o : Option Accent) :
    (accentStructureErrors o).count "Missing gradient chart colors" = 0 := by
  unfold accentStructureErrors
  rcases o with _ | a
  · decide
  · dsimp only
    split_ifs <;> decide

/-- With the charts object present and the gradient list absent or empty,
the charts block produces the gradient error exactly once, regardless of the
`primary` and `categorical` lists. -/
lemma count_gradient_chartStructureErrors (charts : Charts)
    (h : emptyList charts.gradient = true) :
    (chartStructureErrors (some charts)).count "Missing gradient chart colors" = 1 := by
  unfold chartStructureErrors
  dsimp only
  rw [if_pos h]
  split_ifs <;> decide

/-- Claim C7 counterexample: a theme with no `colors.charts` object at all —
so its `colors.charts.gradient` list is certainly missing — produces zero
structural errors naming the gradient colors (only the one
`"Missing chart colors definition"` error). -/
theorem c7_counterexample :
    themeNoCharts.colors.bind ThemeColors.charts = none ∧
    validateThemeStructure themeNoCharts = ["Missing chart colors definition"] ∧
    (validateThemeStructure themeNoCharts).count "Missing gradient chart colors" = 0 := by
  exact ⟨rfl, by decide, by decide⟩

/-- Claim C7 (amended): provided the `colors.charts` object itself is
present, a missing or empty gradient list produces exactly one structural
error naming the gradient colors, regardless of every other field of the
theme; when `colors.charts` (or `colors`) is absent, a single
`"Missing chart colors definition"` error is produced instead and no
gradient-specific error appears (see the counterexample). -/
theorem c7_gradient_error_exactly_once (t : Theme) (cols : ThemeColors) (charts : Charts)
    (h1 : t.colors = some cols) (h2 : cols.charts = some charts)
    (h3 : emptyList charts.gradient = true) :
    (validateThemeStructure t).count "Missing gradient chart colors" = 1 := by
  unfold validateThemeStructure
  rw [h1]
  simp only [Option.some_bind]
  rw [h2, List.count_append, count_gradient_accentStructureErrors,
    count_gradient_chartStructureErrors charts h3]

/-- Claim C7 witness: a theme with a missing accent, a missing categorical
list and an empty gradient list still produces the gradient error exactly
once. -/
theorem c7_witness :
    (validateThemeStructure themeGradientEmpty).count "Missing gradient chart colors" = 1 :=
  c7_gradient_error_exactly_once themeGradientEmpty _ _ rfl rfl (by decide)

/-  Claim C8. -/

/-- A character list that is not six hex digits long (after the optional
leading `#` was stripped) fails to parse. -/
lemma hexParse_none_of_bad (cs : List Char)
    (h : (decide (cs.length = 6) && cs.all isHexDigit) = false) :
    hexParse cs = none := by
  rcases cs with _ | ⟨a, _ | ⟨b, _ | ⟨c, _ | ⟨d, _ | ⟨e, _ | ⟨f, _ | ⟨g, rest⟩⟩⟩⟩⟩⟩⟩ <;>
    try rfl
  unfold hexParse
  dsimp only
  rw [if_neg]
  intro hc
  simp only [Bool.and_eq_true] at hc
  obtain ⟨⟨⟨⟨⟨ha, hb⟩, hc2⟩, hd⟩, he⟩, hf⟩ := hc
  simp [List.all, ha, hb, hc2, hd, he, hf] at h

/-- Claim C8: `validateTheme` is total by construction (every function in
this development is a total Lean function); any color string that does not
match an optional `#` followed by exactly six hex digits makes `hexToRgb`
return the `null` sentinel and makes the relative luminance evaluate to `0`,
so an unparsable color degrades instead of aborting the remaining checks. -/
theorem c8_unparsable_color_degrades (s : String) (h : matchesHexPattern s = false) :
    hexToRgb s = none ∧ getLuminance s = 0 := by
  have hn : hexToRgb s = none := by
    unfold hexToRgb
    apply hexParse_none_of_bad
    unfold matchesHexPattern at h
    exact h
  refine ⟨hn, ?_⟩
  unfold getLuminance
  rw [hn]

/-- Claim C8 witness: `"not-a-color"` does not match the hex shape, parses to
the `null` sentinel, and has luminance `0`. -/
theorem c8_witness :
    matchesHexPattern "not-a-color" = false ∧ hexToRgb "not-a-color" = none ∧
      getLuminance "not-a-color" = 0 := by
  have h := c8_unparsable_color_degrades "not-a-color" (by decide)
  exact ⟨by decide, h.1, h.2⟩

/-  Claim C9. -/

/-- Claim C9: the contrast ratio is symmetric in its two arguments. -/
theorem c9_contrast_ratio_symmetric (a b : String) :
    getContrastRatio a b = getContrastRatio b a := by
  unfold getContrastRatio
  dsimp only
  rw [max_comm (getLuminance a) (getLuminance b), min_comm (getLuminance a) (getLuminance b)]

/-  Claim C10. -/

/-- Claim C10: `validateTheme` returns `isValid = true` exactly when its
error list is empty; warnings never affect `isValid`. -/
theorem c10_is_valid_iff_no_errors (t : Theme) :
    (validateTheme t).isValid = true ↔ (validateTheme t).errors = [] := by
  unfold validateTheme
  dsimp only
  split
  · simp [List.isEmpty_iff]
  · simp [List.isEmpty_iff]

end Portfolio
